import Mathlib

/-!
Verification of the MCP discovery and registry subsystem of `mcp_discovery.py`.

The embedding models the module's pure data flow.  Wall-clock time
(`datetime.now()`) is passed explicitly as a `Nat` tick count (seconds), and
every outbound HTTP request is modelled by a function from the request URL to
the observed outcome (a status/body response, or an exception raised by the
client).  Authentication headers and request payloads are absorbed into that
network function: they never influence the module's own control flow.
File persistence (`_save_registry` and `_load_registry`) is pure I/O with no
effect on the in-memory state transitions the claims are about, so it is not
modelled.
-/

/-- A tool, as stored in the registry: the source keeps tools as opaque JSON
dictionaries (`List[Dict[str, Any]]`), never inspecting them on the
registry/cache paths, so a tool is modelled as its raw key-value dictionary. -/
structure Tool where
  fields : List (String × String)
deriving DecidableEq, Repr

/-- `MCPServer` (pydantic model): one registered MCP server. -/
structure MCPServer where
  name : String
  url : String
  description : String
  auth_type : Option String
  auth_token_env : Option String
  enabled : Bool
  last_seen : Option Nat
  tools : List Tool
deriving DecidableEq, Repr

/-- `MCPServerRegister`: request body of `POST /servers/register`. -/
structure MCPServerRegister where
  name : String
  url : String
  description : String
  auth_type : Option String
  auth_token_env : Option String
deriving DecidableEq, Repr

/-- `MCPService`: a service as reported by the remote mcp-discovery service.
`status` is kept as its string value (`ServiceStatus` is a string enum). -/
structure MCPService where
  name : String
  service_type : String
  version : String
  endpoint : Option String
  capabilities : List String
  port : Option Nat
  container_id : Option String
  status : String
deriving DecidableEq, Repr

/-- `DiscoveryResult`: what `MCPDiscoveryClient.refresh_services` returns
(`services` parsed from the response, `total` and `source` read from its
JSON, on transport failure an empty result with `source="error"`). -/
structure DiscoveryResult where
  services : List MCPService
  total : Nat
  source : String
deriving DecidableEq, Repr

/-- `MCPDiscoverRequest`: request body of `POST /discover`. -/
structure MCPDiscoverRequest where
  scan_docker : Bool
  scan_ports : List Nat
  scan_localhost : Bool
  use_discovery_service : Bool
  sources : List String
deriving DecidableEq, Repr

/-- One entry of the `discovered` list built by `discover_servers`: the keys
of the per-server dict that the rest of the handler reads. -/
structure ServerInfo where
  name : String
  url : String
  source : String
  service_type : String
  capabilities : List String
  status : String
  container_id : Option String
deriving DecidableEq, Repr

/-- Lookup in an association list, mirroring Python `dict.get` /
`name in dict` on the string-keyed dicts of `MCPRegistry`. -/
def alookup (k : String) : List (String × α) → Option α
  | [] => none
  | (q, v) :: rest => if q = k then some v else alookup k rest

/-- Python `d[k] = v`: replace the entry in place when the key exists
(dicts keep insertion order), append otherwise. -/
def dictInsert (k : String) (v : α) : List (String × α) → List (String × α)
  | [] => [(k, v)]
  | (q, w) :: rest => if q = k then (k, v) :: rest else (q, w) :: dictInsert k v rest

/-- Python `del d[k]` (under the dict invariant that keys are unique;
removing every occurrence coincides with removing the one entry). -/
def dictErase (k : String) : List (String × α) → List (String × α)
  | [] => []
  | (q, w) :: rest => if q = k then dictErase k rest else (q, w) :: dictErase k rest

/-- `MCPRegistry.cache_ttl = timedelta(minutes=5)`, in seconds. -/
def cacheTTL : Nat := 300

/-- `MCPRegistry`: the in-memory state — `servers`, `tool_cache` and
`last_cache_refresh`, each a string-keyed dict (modelled as an association
list preserving insertion order). -/
structure MCPRegistry where
  servers : List (String × MCPServer)
  tool_cache : List (String × List Tool)
  last_cache_refresh : List (String × Nat)
deriving DecidableEq, Repr

/-- `MCPRegistry.register`: stamp `last_seen = datetime.now()`, upsert by
name, persist (persistence not modelled), return the stored server. -/
def MCPRegistry.register (reg : MCPRegistry) (server : MCPServer) (now : Nat) :
    MCPServer × MCPRegistry :=
  let stamped := { server with last_seen := some now }
  (stamped, { reg with servers := dictInsert stamped.name stamped reg.servers })

/-- `MCPRegistry.unregister`: when the name is registered, delete it from
`servers` and from `tool_cache` (the source deletes the cache entry only when
present, which coincides with unconditional erase) and return `True`;
otherwise return `False`. -/
def MCPRegistry.unregister (reg : MCPRegistry) (name : String) : Bool × MCPRegistry :=
  if (alookup name reg.servers).isSome then
    (true,
     { reg with servers := dictErase name reg.servers,
                tool_cache := dictErase name reg.tool_cache })
  else (false, reg)

/-- `MCPRegistry.get`. -/
def MCPRegistry.get (reg : MCPRegistry) (name : String) : Option MCPServer :=
  alookup name reg.servers

/-- `MCPRegistry.list_all`: the dict's values in insertion order. -/
def MCPRegistry.list_all (reg : MCPRegistry) : List MCPServer :=
  reg.servers.map Prod.snd

/-- `MCPRegistry.get_tools`: `self.tool_cache.get(server_name, [])`. -/
def MCPRegistry.get_tools (reg : MCPRegistry) (server_name : String) : List Tool :=
  (alookup server_name reg.tool_cache).getD []

/-- `MCPRegistry.update_tools`: replace the cache entry, reset the freshness
clock to `now`, and when the server is registered also mirror the tools onto
the descriptor and stamp its `last_seen`. -/
def MCPRegistry.update_tools (reg : MCPRegistry) (server_name : String)
    (tools : List Tool) (now : Nat) : MCPRegistry :=
  let reg1 := { reg with
    tool_cache := dictInsert server_name tools reg.tool_cache,
    last_cache_refresh := dictInsert server_name now reg.last_cache_refresh }
  match alookup server_name reg1.servers with
  | some s =>
      { reg1 with servers :=
          dictInsert server_name { s with tools := tools, last_seen := some now } reg1.servers }
  | none => reg1

/-- `MCPRegistry.is_cache_valid`: `now - last_refresh < cache_ttl`, `False`
when the name was never refreshed. -/
def MCPRegistry.is_cache_valid (reg : MCPRegistry) (server_name : String) (now : Nat) : Bool :=
  match alookup server_name reg.last_cache_refresh with
  | none => false
  | some t => decide (now - t < cacheTTL)

/-- Python `url.rstrip('/')`. -/
def rstripSlash (s : String) : String :=
  ⟨(s.data.reverse.dropWhile (fun c => c = '/')).reverse⟩

/-- Python slice `text[:n]`. -/
def strTake (s : String) (n : Nat) : String :=
  ⟨s.data.take n⟩

/-- The outcome the HTTP client observes for one GET during a liveness probe:
either the request raised (connection error, timeout, invalid URL, ...) or a
response arrived with a status, a flag for whether `response.json()` parses,
and the body text. -/
inductive ProbeResp where
  | exn
  | resp (status : Nat) (jsonOk : Bool) (text : String)
deriving DecidableEq, Repr

/-- The `data` field of a probe result: the parsed JSON body, or
`{"raw": response.text[:500]}` when parsing fails. -/
inductive ProbeData where
  | parsed (body : String)
  | rawText (truncated : String)
deriving DecidableEq, Repr

/-- The dict returned by `probe_mcp_server`. -/
structure ProbeResult where
  alive : Bool
  endpoint : Option String
  status_code : Option Nat
  data : Option ProbeData
deriving DecidableEq, Repr

/-- The candidate endpoint list of `probe_mcp_server`. -/
def probeEndpoints : List String :=
  ["/health", "/api/health", "/healthz", "/", "/api/tools", "/tools"]

/-- The loop of `probe_mcp_server`: try each candidate in order; an exception
moves to the next candidate; a 200 returns alive with the parsed (or
raw-wrapped) body; any other status falls through to the next candidate.
The second component instruments the URLs actually requested. -/
def probeGo (net : String → ProbeResp) (url : String) :
    List String → ProbeResult × List String
  | [] => ({ alive := false, endpoint := none, status_code := none, data := none }, [])
  | ep :: rest =>
    let u := rstripSlash url ++ ep
    match net u with
    | .exn => ((probeGo net url rest).1, u :: (probeGo net url rest).2)
    | .resp status jsonOk text =>
      if status = 200 then
        ({ alive := true, endpoint := some ep, status_code := some status,
           data := some (if jsonOk then .parsed text else .rawText (strTake text 500)) },
         [u])
      else ((probeGo net url rest).1, u :: (probeGo net url rest).2)

/-- `probe_mcp_server(url)`, returning the result dict together with the list
of URLs it attempted. -/
def probe_mcp_server (net : String → ProbeResp) (url : String) :
    ProbeResult × List String :=
  probeGo net url probeEndpoints

/-- The body of one tool-fetch response as the source discriminates it:
`response.json()` raising, a raw JSON list, a JSON object (with optional
`tools` and `data` keys), or any other JSON value. -/
inductive FetchBody where
  | badJson
  | jlist (tools : List Tool)
  | jdict (toolsField : Option (List Tool)) (dataField : Option (List Tool))
  | other
deriving DecidableEq, Repr

/-- The outcome of one GET during a tool fetch. -/
inductive FetchResp where
  | exn
  | resp (status : Nat) (body : FetchBody)
deriving DecidableEq, Repr

/-- The candidate endpoint list of `fetch_mcp_tools`. -/
def tool_endpoints : List String :=
  ["/api/tools", "/tools", "/api/v1/tools", "/mcp/tools", "/.well-known/mcp.json"]

/-- The loop of `fetch_mcp_tools`: `tools` carries the loop variable (it is
reassigned by a 200 response and survives into later iterations).  A 200 with
a nonempty extracted tool list breaks; an exception, a non-200 status, an
unparseable body, or an empty extraction continues with the next candidate.
A JSON object extracts `data.get("tools", data.get("data", []))`.
The second component instruments the URLs actually requested. -/
def fetchGo (net : String → FetchResp) (url : String) :
    List String → List Tool → List Tool × List String
  | [], tools => (tools, [])
  | ep :: rest, tools =>
    let u := rstripSlash url ++ ep
    match net u with
    | .exn => ((fetchGo net url rest tools).1, u :: (fetchGo net url rest tools).2)
    | .resp status body =>
      if status = 200 then
        match body with
        | .badJson => ((fetchGo net url rest tools).1, u :: (fetchGo net url rest tools).2)
        | .jlist l =>
          if l.isEmpty then ((fetchGo net url rest l).1, u :: (fetchGo net url rest l).2)
          else (l, [u])
        | .jdict tf df =>
          let l := tf.getD (df.getD [])
          if l.isEmpty then ((fetchGo net url rest l).1, u :: (fetchGo net url rest l).2)
          else (l, [u])
        | .other => ((fetchGo net url rest tools).1, u :: (fetchGo net url rest tools).2)
      else ((fetchGo net url rest tools).1, u :: (fetchGo net url rest tools).2)

/-- What `fetch_mcp_tools` produces: the returned tool list, the URLs it
requested (empty on a cache hit), and the registry state afterwards. -/
structure FetchToolsResult where
  tools : List Tool
  attempts : List String
  reg : MCPRegistry
deriving DecidableEq, Repr

/-- `fetch_mcp_tools(server, force_refresh)`: answer from the cache when it
is valid and no refresh is forced; otherwise walk the candidate endpoints and
unconditionally store the outcome (even an empty list) via `update_tools`. -/
def fetch_mcp_tools (net : String → FetchResp) (reg : MCPRegistry)
    (server : MCPServer) (force_refresh : Bool) (now : Nat) : FetchToolsResult :=
  if !force_refresh && reg.is_cache_valid server.name now then
    { tools := reg.get_tools server.name, attempts := [], reg := reg }
  else
    let r := fetchGo net server.url tool_endpoints []
    { tools := r.1, attempts := r.2, reg := reg.update_tools server.name r.1 now }

/-- The outcome of one POST during a tool invocation: an exception, or a
response with its status, whether `response.json()` parses, and body text. -/
inductive InvokeResp where
  | exn
  | resp (status : Nat) (jsonOk : Bool) (body : String)
deriving DecidableEq, Repr

/-- The dict returned by `invoke_mcp_tool`. -/
structure InvokeResult where
  success : Bool
  result : Option String
  error : Option String
  server : String
  tool : String
deriving DecidableEq, Repr

/-- The candidate endpoint list of `invoke_mcp_tool`. -/
def invoke_endpoints (tool_name : String) : List String :=
  ["/api/tools/" ++ tool_name ++ "/invoke",
   "/tools/" ++ tool_name ++ "/invoke",
   "/api/tools/" ++ tool_name,
   "/api/invoke",
   "/invoke"]

/-- The loop of `invoke_mcp_tool`: 200/201 with parseable JSON returns
success (an unparseable body raises inside the `try`, so it continues); a
404 tries the next candidate; any other status is terminal and reports
`HTTP {status}: {text[:500]}`; an exception continues.  The second component
instruments the URLs actually requested. -/
def invokeGo (net : String → InvokeResp) (server : MCPServer) (tool_name : String) :
    List String → InvokeResult × List String
  | [] =>
    ({ success := false, result := none,
       error := some ("Could not invoke tool " ++ tool_name ++ " on server " ++ server.name),
       server := server.name, tool := tool_name }, [])
  | ep :: rest =>
    let u := rstripSlash server.url ++ ep
    match net u with
    | .exn =>
      ((invokeGo net server tool_name rest).1, u :: (invokeGo net server tool_name rest).2)
    | .resp status jsonOk body =>
      if status = 200 ∨ status = 201 then
        if jsonOk then
          ({ success := true, result := some body, error := none,
             server := server.name, tool := tool_name }, [u])
        else
          ((invokeGo net server tool_name rest).1, u :: (invokeGo net server tool_name rest).2)
      else if status = 404 then
        ((invokeGo net server tool_name rest).1, u :: (invokeGo net server tool_name rest).2)
      else
        ({ success := false, result := none,
           error := some ("HTTP " ++ toString status ++ ": " ++ strTake body 500),
           server := server.name, tool := tool_name }, [u])

/-- `invoke_mcp_tool(server, tool_name, method, parameters)`: the payload and
method are absorbed into the network function. -/
def invoke_mcp_tool (net : String → InvokeResp) (server : MCPServer)
    (tool_name : String) : InvokeResult × List String :=
  invokeGo net server tool_name (invoke_endpoints tool_name)

/-- The dict returned by the `POST /servers/register` handler. -/
structure RegisterResponse where
  success : Bool
  error : Option String
  server : Option MCPServer
deriving DecidableEq, Repr

/-- `register_server(request)`: build the descriptor, probe the URL for
liveness, reject without touching the registry when the probe reports not
alive, otherwise register (which stamps `last_seen`). -/
def register_server (net : String → ProbeResp) (reg : MCPRegistry)
    (request : MCPServerRegister) (now : Nat) : RegisterResponse × MCPRegistry :=
  let server : MCPServer :=
    { name := request.name, url := request.url, description := request.description,
      auth_type := request.auth_type, auth_token_env := request.auth_token_env,
      enabled := true, last_seen := none, tools := [] }
  let probe := (probe_mcp_server net request.url).1
  if !probe.alive then
    ({ success := false,
       error := some ("Server at " ++ request.url ++ " is not responding"),
       server := none }, reg)
  else
    let r := reg.register server now
    ({ success := true, error := none, server := some r.1 }, r.2)

/-- Python `f"http://localhost:{svc.port}"` where `port` is `Optional[int]`:
`None` prints as the string `None`. -/
def portStr : Option Nat → String
  | some p => toString p
  | none => "None"

/-- The conversion step of `discover_servers` from an `MCPService` reported
by the discovery service to a `discovered` entry:
`svc.endpoint or f"http://localhost:{svc.port}"` (Python `or` also takes the
fallback on an empty string). -/
def svcToInfo (svc : MCPService) : ServerInfo :=
  { name := svc.name,
    url := match svc.endpoint with
           | some e => if e = "" then "http://localhost:" ++ portStr svc.port else e
           | none => "http://localhost:" ++ portStr svc.port,
    source := "mcp-discovery-service",
    service_type := svc.service_type,
    capabilities := svc.capabilities,
    status := svc.status,
    container_id := svc.container_id }

/-- The localhost port scan of `discover_servers`: probe each configured port
and keep the alive ones as `localhost-{port}` entries with source
`port_scan`. -/
def portScan (net : String → ProbeResp) : List Nat → List ServerInfo
  | [] => []
  | p :: rest =>
    let url := "http://localhost:" ++ toString p
    if (probe_mcp_server net url).1.alive then
      { name := "localhost-" ++ toString p, url := url, source := "port_scan",
        service_type := "unknown", capabilities := [], status := "healthy",
        container_id := none } :: portScan net rest
    else portScan net rest

/-- The auto-registration loop at the end of `discover_servers`: register a
discovered server only when no entry of that name exists yet
(`if not existing`; a pydantic model instance is always truthy, so this is a
`None` test). -/
def autoRegister (now : Nat) : List ServerInfo → MCPRegistry → MCPRegistry
  | [], reg => reg
  | info :: rest, reg =>
    match reg.get info.name with
    | some _ => autoRegister now rest reg
    | none =>
      let server : MCPServer :=
        { name := info.name, url := info.url,
          description := "Auto-discovered from " ++ info.source,
          auth_type := none, auth_token_env := none,
          enabled := true, last_seen := none, tools := [] }
      autoRegister now rest (reg.register server now).2

/-- The discovery phase of `discover_servers`: `discovered` starts empty and
`source` starts `"local"`; when the discovery service is requested, available
and its forced refresh reports a positive total, its services become
`discovered` and `source` becomes the service's own reported source; whenever
`discovered` is still empty after that, the local fallback runs (docker scan
results are an input: container enumeration is an external effect) and
`source` is (re)set to `"local"`. -/
def discoverLists (net : String → ProbeResp) (available : Bool)
    (refreshResult : DiscoveryResult) (docker_found : List ServerInfo)
    (request : MCPDiscoverRequest) : List ServerInfo × String :=
  let useService :=
    request.use_discovery_service && available && decide (0 < refreshResult.total)
  let fromService := if useService then refreshResult.services.map svcToInfo else []
  let serviceSource := if useService then refreshResult.source else "local"
  if fromService.isEmpty then
    ((if request.scan_docker then docker_found else []) ++
     (if request.scan_localhost then portScan net request.scan_ports else []),
     "local")
  else (fromService, serviceSource)

/-- The dict returned by the `POST /discover` handler (the
`discovery_service_available` echo of the input is omitted). -/
structure DiscoverResponse where
  discovered : List ServerInfo
  count : Nat
  source : String
  registered_total : Nat
deriving DecidableEq, Repr

/-- `discover_servers(request)`: run the discovery phase, auto-register the
newly found servers, and report the discovered list, its source and the
post-discovery registry size. -/
def discover_servers (net : String → ProbeResp) (available : Bool)
    (refreshResult : DiscoveryResult) (docker_found : List ServerInfo)
    (reg : MCPRegistry) (request : MCPDiscoverRequest) (now : Nat) :
    DiscoverResponse × MCPRegistry :=
  let ds := discoverLists net available refreshResult docker_found request
  let reg2 := autoRegister now ds.1 reg
  ({ discovered := ds.1, count := ds.1.length, source := ds.2,
     registered_total := reg2.list_all.length }, reg2)

/-- One aggregated tool of `GET /tools`: the tool dict spread together with
the owning server's name and URL. -/
structure TaggedTool where
  tool : Tool
  server : String
  server_url : String
deriving DecidableEq, Repr

/-- The per-server task of `list_all_tools` folded sequentially over the
server list (each task only touches its own server's cache keys, so the
concurrent gather is order-independent): a disabled server contributes
nothing, an enabled one contributes its fetched tools tagged with its name
and URL; exceptions inside a task yield an empty contribution. -/
def list_all_tools_go (net : String → FetchResp) (refresh : Bool) (now : Nat) :
    List MCPServer → MCPRegistry → List TaggedTool × MCPRegistry
  | [], reg => ([], reg)
  | s :: rest, reg =>
    if s.enabled then
      let r := fetch_mcp_tools net reg s refresh now
      let t := list_all_tools_go net refresh now rest r.reg
      (r.tools.map (fun tl => { tool := tl, server := s.name, server_url := s.url }) ++ t.1,
       t.2)
    else list_all_tools_go net refresh now rest reg

/-- `list_all_tools(refresh)` restricted to the aggregate tool list (the
category grouping is a pure rearrangement of it). -/
def list_all_tools (net : String → FetchResp) (refresh : Bool) (now : Nat)
    (reg : MCPRegistry) : List TaggedTool × MCPRegistry :=
  list_all_tools_go net refresh now reg.list_all reg

/-- A single fetch attempt that yields no tools, as the source treats it: the
request raised, or the status is not 200, or the body does not parse, or the
extracted tool list is empty (`if tools:` stays false), or the JSON is
neither a list nor an object. -/
def failsToYieldTools : FetchResp → Bool
  | .exn => true
  | .resp status body =>
    if status = 200 then
      match body with
      | .badJson => true
      | .jlist l => l.isEmpty
      | .jdict tf df => (tf.getD (df.getD [])).isEmpty
      | .other => true
    else true

/-- Concrete tool value for concrete evaluations. -/
def toolA : Tool := ⟨[("name", "echo")]⟩

/-- Second concrete tool value. -/
def toolB : Tool := ⟨[("name", "list-files")]⟩

/-- Concrete enabled server at `http://h` named `s`. -/
def srvS : MCPServer :=
  { name := "s", url := "http://h", description := "", auth_type := none,
    auth_token_env := none, enabled := true, last_seen := none, tools := [] }

/-- Empty registry state. -/
def regEmpty : MCPRegistry := ⟨[], [], []⟩

/-- Registry holding only `srvS`, with empty caches. -/
def regS : MCPRegistry := ⟨[("s", srvS)], [], []⟩

/-- Registry holding `srvS` together with a cached tool list and a freshness
stamp at tick 5. -/
def regSFull : MCPRegistry := ⟨[("s", srvS)], [("s", [toolA])], [("s", 5)]⟩

/-- A network where the first liveness candidate answers 500 and the second
answers 200 — the shape `[A→500, B→200]` of the spec's ProbeEngine example. -/
def cexNet : String → ProbeResp := fun u =>
  if u = "http://svc/health" then .resp 500 true "server error"
  else if u = "http://svc/api/health" then .resp 200 true "ok"
  else .exn

/-- A network answering 500 to every invocation attempt. -/
def netInv500 : String → InvokeResp := fun _ => .resp 500 true "boom"

/-- A network answering 404 to every invocation attempt. -/
def netInv404 : String → InvokeResp := fun _ => .resp 404 true "nf"

/-- A network answering 500 to every probe attempt. -/
def netP500 : String → ProbeResp := fun _ => .resp 500 true "err"

/-- A network answering 500 to every tool-fetch attempt. -/
def netF500 : String → FetchResp := fun _ => .resp 500 .other

/-- A network where every request raises. -/
def netProbeDead : String → ProbeResp := fun _ => .exn

/-- A tool-fetch network where every request raises. -/
def netFetchDead : String → FetchResp := fun _ => .exn

/-- A tool-fetch network answering `srvS`'s first candidate with one tool. -/
def netToolsOk : String → FetchResp := fun u =>
  if u = "http://h/api/tools" then .resp 200 (.jlist [toolA]) else .exn

/-- Registration request with a syntactically invalid URL (the client raises
on it before any traffic, so every attempt on it errors). -/
def reqBadUrl : MCPServerRegister :=
  { name := "bad", url := "http//:no scheme", description := "",
    auth_type := none, auth_token_env := none }

/-- A service as the remote discovery service reports it. -/
def svcR : MCPService :=
  { name := "r", service_type := "unknown", version := "unknown",
    endpoint := some "http://remote:1", capabilities := [], port := none,
    container_id := none, status := "healthy" }

/-- Remote refresh result with one service and its own source string. -/
def remoteOne : DiscoveryResult := ⟨[svcR], 1, "refresh-src"⟩

/-- Discover request that uses the discovery service and no local scans. -/
def reqDisc : MCPDiscoverRequest :=
  { scan_docker := false, scan_ports := [], scan_localhost := false,
    use_discovery_service := true, sources := [] }

/-- Discover request running only the docker scan. -/
def reqScanDocker : MCPDiscoverRequest :=
  { scan_docker := true, scan_ports := [], scan_localhost := false,
    use_discovery_service := false, sources := [] }

/-- Docker-scan results: one entry colliding with the registered name `s`
and one new entry `b`. -/
def dockerFoundSB : List ServerInfo :=
  [{ name := "s", url := "http://other", source := "docker", service_type := "unknown",
     capabilities := [], status := "healthy", container_id := some "c1" },
   { name := "b", url := "http://b", source := "docker", service_type := "unknown",
     capabilities := [], status := "healthy", container_id := some "c2" }]

/-- Enabled server `a` at `http://a`. -/
def srvA : MCPServer :=
  { name := "a", url := "http://a", description := "", auth_type := none,
    auth_token_env := none, enabled := true, last_seen := none, tools := [] }

/-- Enabled server `b` at `http://b`. -/
def srvB : MCPServer :=
  { name := "b", url := "http://b", description := "", auth_type := none,
    auth_token_env := none, enabled := true, last_seen := none, tools := [] }

/-- Enabled server `c` at `http://c`. -/
def srvC : MCPServer :=
  { name := "c", url := "http://c", description := "", auth_type := none,
    auth_token_env := none, enabled := true, last_seen := none, tools := [] }

/-- Registry with the three enabled servers `a`, `b`, `c`. -/
def regABC : MCPRegistry := ⟨[("a", srvA), ("b", srvB), ("c", srvC)], [], []⟩

/-- Tool-fetch network where `a` and `c` answer with one tool each and every
request to `b` (and anything else) raises — `b`'s fetch times out. -/
def netAC : String → FetchResp := fun u =>
  if u = "http://a/api/tools" then .resp 200 (.jlist [toolA])
  else if u = "http://c/tools" then .resp 200 (.jlist [toolB])
  else .exn

/-- `srvS` with a different endpoint, for an overwriting registration. -/
def srvS2 : MCPServer := { srvS with url := "http://h2" }

theorem alookup_dictInsert_self (k : String) (v : α) (l : List (String × α)) :
    alookup k (dictInsert k v l) = some v := by
  induction l with
  | nil => simp [dictInsert, alookup]
  | cons hd tl ih =>
    obtain ⟨q, w⟩ := hd
    by_cases h : q = k
    · simp [dictInsert, alookup, h]
    · simp [dictInsert, alookup, h, ih]

theorem alookup_dictInsert_ne (k q : String) (v : α) (l : List (String × α))
    (h : q ≠ k) : alookup q (dictInsert k v l) = alookup q l := by
  have h2 : k ≠ q := fun hk => h hk.symm
  induction l with
  | nil => simp [dictInsert, alookup, h2]
  | cons hd tl ih =>
    obtain ⟨p, w⟩ := hd
    by_cases hp : p = k
    · subst hp
      simp [dictInsert, alookup, h2]
    · simp [dictInsert, alookup, hp, ih]

theorem length_dictInsert (k : String) (v : α) (l : List (String × α))
    (h : (alookup k l).isSome) : (dictInsert k v l).length = l.length := by
  induction l with
  | nil => simp [alookup] at h
  | cons hd tl ih =>
    obtain ⟨q, w⟩ := hd
    by_cases hq : q = k
    · simp [dictInsert, hq]
    · simp only [alookup, if_neg hq] at h
      simp [dictInsert, hq, ih h]

theorem alookup_dictErase_self (k : String) (l : List (String × α)) :
    alookup k (dictErase k l) = none := by
  induction l with
  | nil => simp [dictErase, alookup]
  | cons hd tl ih =>
    obtain ⟨q, w⟩ := hd
    by_cases hq : q = k
    · simp [dictErase, hq, ih]
    · simp [dictErase, alookup, hq, ih]

theorem alookup_dictErase_ne (k q : String) (l : List (String × α))
    (h : q ≠ k) : alookup q (dictErase k l) = alookup q l := by
  have h2 : k ≠ q := fun hk => h hk.symm
  induction l with
  | nil => simp [dictErase]
  | cons hd tl ih =>
    obtain ⟨p, w⟩ := hd
    by_cases hp : p = k
    · subst hp
      simp [dictErase, alookup, h2, ih]
    · simp [dictErase, alookup, hp, ih]

theorem update_tools_tool_cache (reg : MCPRegistry) (n : String) (ts : List Tool)
    (now : Nat) :
    (reg.update_tools n ts now).tool_cache = dictInsert n ts reg.tool_cache := by
  unfold MCPRegistry.update_tools
  cases h : alookup n reg.servers <;> simp [h]

theorem update_tools_refresh (reg : MCPRegistry) (n : String) (ts : List Tool)
    (now : Nat) :
    (reg.update_tools n ts now).last_cache_refresh =
      dictInsert n now reg.last_cache_refresh := by
  unfold MCPRegistry.update_tools
  cases h : alookup n reg.servers <;> simp [h]

theorem probeGo_all_exn (net : String → ProbeResp) (url : String) :
    ∀ eps : List String,
      (∀ ep ∈ eps, net (rstripSlash url ++ ep) = ProbeResp.exn) →
      (probeGo net url eps).1 =
        { alive := false, endpoint := none, status_code := none, data := none } := by
  intro eps
  induction eps with
  | nil => intro _; rfl
  | cons ep rest ih =>
    intro h
    have hhd := h ep (List.mem_cons_self ep rest)
    have htl : ∀ e ∈ rest, net (rstripSlash url ++ e) = ProbeResp.exn :=
      fun e he => h e (List.mem_cons_of_mem _ he)
    simp [probeGo, hhd, ih htl]

theorem fetchGo_fail_nil (net : String → FetchResp) (url : String) :
    ∀ eps : List String,
      (∀ ep ∈ eps, failsToYieldTools (net (rstripSlash url ++ ep)) = true) →
      (fetchGo net url eps []).1 = [] := by
  intro eps
  induction eps with
  | nil => intro _; rfl
  | cons ep rest ih =>
    intro h
    have hhd := h ep (List.mem_cons_self ep rest)
    have htl : ∀ e ∈ rest, failsToYieldTools (net (rstripSlash url ++ e)) = true :=
      fun e he => h e (List.mem_cons_of_mem _ he)
    cases hnet : net (rstripSlash url ++ ep) with
    | exn => simp [fetchGo, hnet, ih htl]
    | resp status body =>
      rw [hnet] at hhd
      by_cases hs : status = 200
      · subst hs
        cases body with
        | badJson => simp [fetchGo, hnet, ih htl]
        | jlist l =>
          simp only [failsToYieldTools, if_pos rfl] at hhd
          have hl : l = [] := List.isEmpty_iff.mp hhd
          subst hl
          simp [fetchGo, hnet, ih htl]
        | jdict tf df =>
          simp only [failsToYieldTools, if_pos rfl] at hhd
          have hl : tf.getD (df.getD []) = [] := List.isEmpty_iff.mp hhd
          simp [fetchGo, hnet, hl, ih htl]
        | other => simp [fetchGo, hnet, ih htl]
      · simp [fetchGo, hnet, hs, ih htl]

/-- C1: the claim as frozen is false on the code at a concrete input: on the
liveness probe with candidates answering `[500, 200]`, the first candidate's
non-404 failure status is NOT terminal — the probe attempts the second
candidate and reports success via it, rather than failing with status 500. -/
theorem c1_counterexample_probe_continues_after_500 :
    (probe_mcp_server cexNet "http://svc").1.alive = true ∧
    (probe_mcp_server cexNet "http://svc").1.endpoint = some "/api/health" ∧
    (probe_mcp_server cexNet "http://svc").2 =
      ["http://svc/health", "http://svc/api/health"] := by
  decide

/-- C1 (amended): only tool invocation treats a non-404 failure status as
terminal for the whole probe, reporting `HTTP {status}` with the truncated
body and attempting no later candidate, while a 404 moves to the next
candidate; the liveness probe and the tool-catalog fetch instead treat every
non-200 status (404 or otherwise) as "try the next candidate". -/
theorem c1_amended_non404_terminal_only_for_invoke :
    (∀ (net : String → InvokeResp) (server : MCPServer) (tool_name ep : String)
       (rest : List String) (status : Nat) (jsonOk : Bool) (body : String),
       net (rstripSlash server.url ++ ep) = InvokeResp.resp status jsonOk body →
       status ≠ 200 → status ≠ 201 → status ≠ 404 →
       invokeGo net server tool_name (ep :: rest) =
         ({ success := false, result := none,
            error := some ("HTTP " ++ toString status ++ ": " ++ strTake body 500),
            server := server.name, tool := tool_name },
          [rstripSlash server.url ++ ep])) ∧
    (∀ (net : String → InvokeResp) (server : MCPServer) (tool_name ep : String)
       (rest : List String) (jsonOk : Bool) (body : String),
       net (rstripSlash server.url ++ ep) = InvokeResp.resp 404 jsonOk body →
       invokeGo net server tool_name (ep :: rest) =
         ((invokeGo net server tool_name rest).1,
          (rstripSlash server.url ++ ep) :: (invokeGo net server tool_name rest).2)) ∧
    (∀ (net : String → ProbeResp) (url ep : String) (rest : List String)
       (status : Nat) (jsonOk : Bool) (text : String),
       net (rstripSlash url ++ ep) = ProbeResp.resp status jsonOk text →
       status ≠ 200 →
       probeGo net url (ep :: rest) =
         ((probeGo net url rest).1,
          (rstripSlash url ++ ep) :: (probeGo net url rest).2)) ∧
    (∀ (net : String → FetchResp) (url ep : String) (rest : List String)
       (status : Nat) (body : FetchBody) (tools : List Tool),
       net (rstripSlash url ++ ep) = FetchResp.resp status body →
       status ≠ 200 →
       fetchGo net url (ep :: rest) tools =
         ((fetchGo net url rest tools).1,
          (rstripSlash url ++ ep) :: (fetchGo net url rest tools).2)) := by
  refine ⟨?_, ?_, ?_, ?_⟩
  · intro net server tool_name ep rest status jsonOk body hnet h200 h201 h404
    simp [invokeGo, hnet, h200, h201, h404]
  · intro net server tool_name ep rest jsonOk body hnet
    simp [invokeGo, hnet]
  · intro net url ep rest status jsonOk text hnet h200
    simp [probeGo, hnet, h200]
  · intro net url ep rest status body tools hnet h200
    simp [fetchGo, hnet, h200]

/-- C1 (amended), witnessed on concrete networks: invocation hitting a 500
stops with the reported status; invocation hitting a 404, a probe hitting a
500, and a fetch hitting a 500 all continue with the remaining candidates. -/
theorem c1_amended_witness :
    (invokeGo netInv500 srvS "echo" ("/api/invoke" :: []) =
      ({ success := false, result := none,
         error := some ("HTTP " ++ toString (500 : Nat) ++ ": " ++ strTake "boom" 500),
         server := srvS.name, tool := "echo" },
       [rstripSlash srvS.url ++ "/api/invoke"])) ∧
    (invokeGo netInv404 srvS "echo" ("/invoke" :: []) =
      ((invokeGo netInv404 srvS "echo" []).1,
       (rstripSlash srvS.url ++ "/invoke") :: (invokeGo netInv404 srvS "echo" []).2)) ∧
    (probeGo netP500 "http://svc" ("/health" :: ["/api/health"]) =
      ((probeGo netP500 "http://svc" ["/api/health"]).1,
       (rstripSlash "http://svc" ++ "/health") ::
         (probeGo netP500 "http://svc" ["/api/health"]).2)) ∧
    (fetchGo netF500 "http://h" ("/api/tools" :: ["/tools"]) [] =
      ((fetchGo netF500 "http://h" ["/tools"] []).1,
       (rstripSlash "http://h" ++ "/api/tools") ::
         (fetchGo netF500 "http://h" ["/tools"] []).2)) :=
  ⟨c1_amended_non404_terminal_only_for_invoke.1 netInv500 srvS "echo" "/api/invoke" []
     500 true "boom" rfl (by decide) (by decide) (by decide),
   c1_amended_non404_terminal_only_for_invoke.2.1 netInv404 srvS "echo" "/invoke" []
     true "nf" rfl,
   c1_amended_non404_terminal_only_for_invoke.2.2.1 netP500 "http://svc" "/health"
     ["/api/health"] 500 true "err" rfl (by decide),
   c1_amended_non404_terminal_only_for_invoke.2.2.2 netF500 "http://h" "/api/tools"
     ["/tools"] 500 FetchBody.other [] rfl (by decide)⟩

/-- C2: once the cache for a service is fresh (less than the 5-minute TTL
since the last successful cache update), a second fetch without
`force_refresh` makes no HTTP attempt, returns exactly the cached tool list
(which is also what the first call returned), and leaves the state
untouched. -/
theorem c2_cache_hit_no_http (net1 net2 : String → FetchResp) (reg : MCPRegistry)
    (server : MCPServer) (force : Bool) (t now : Nat)
    (hfresh : (fetch_mcp_tools net1 reg server force t).reg.is_cache_valid
                server.name now = true) :
    (fetch_mcp_tools net2 (fetch_mcp_tools net1 reg server force t).reg
        server false now).attempts = [] ∧
    (fetch_mcp_tools net2 (fetch_mcp_tools net1 reg server force t).reg
        server false now).tools =
      (fetch_mcp_tools net1 reg server force t).reg.get_tools server.name ∧
    (fetch_mcp_tools net2 (fetch_mcp_tools net1 reg server force t).reg
        server false now).tools =
      (fetch_mcp_tools net1 reg server force t).tools ∧
    (fetch_mcp_tools net2 (fetch_mcp_tools net1 reg server force t).reg
        server false now).reg =
      (fetch_mcp_tools net1 reg server force t).reg := by
  have hsecond : fetch_mcp_tools net2 (fetch_mcp_tools net1 reg server force t).reg
      server false now =
      { tools := (fetch_mcp_tools net1 reg server force t).reg.get_tools server.name,
        attempts := [], reg := (fetch_mcp_tools net1 reg server force t).reg } := by
    rw [fetch_mcp_tools]
    simp [hfresh]
  have hsame : (fetch_mcp_tools net1 reg server force t).reg.get_tools server.name =
      (fetch_mcp_tools net1 reg server force t).tools := by
    rw [fetch_mcp_tools]
    by_cases hc : (!force && reg.is_cache_valid server.name t) = true
    · simp [hc]
    · simp only [Bool.not_eq_true] at hc
      simp [hc, MCPRegistry.get_tools, update_tools_tool_cache, alookup_dictInsert_self]
  exact ⟨by rw [hsecond], by rw [hsecond], by rw [hsecond]; exact hsame, by rw [hsecond]⟩

/-- C2 witness: a forced fetch at tick 10 stores one tool; the second,
non-forced fetch at tick 100 attempts nothing and answers from the cache. -/
theorem c2_witness :
    (fetch_mcp_tools netFetchDead (fetch_mcp_tools netToolsOk regEmpty srvS true 10).reg
        srvS false 100).attempts = [] ∧
    (fetch_mcp_tools netFetchDead (fetch_mcp_tools netToolsOk regEmpty srvS true 10).reg
        srvS false 100).tools =
      (fetch_mcp_tools netToolsOk regEmpty srvS true 10).reg.get_tools srvS.name ∧
    (fetch_mcp_tools netFetchDead (fetch_mcp_tools netToolsOk regEmpty srvS true 10).reg
        srvS false 100).tools =
      (fetch_mcp_tools netToolsOk regEmpty srvS true 10).tools ∧
    (fetch_mcp_tools netFetchDead (fetch_mcp_tools netToolsOk regEmpty srvS true 10).reg
        srvS false 100).reg =
      (fetch_mcp_tools netToolsOk regEmpty srvS true 10).reg :=
  c2_cache_hit_no_http netToolsOk netFetchDead regEmpty srvS true 10 100 (by decide)

/-- C3: registering a name that already exists overwrites that entry in
place — the registry size is unchanged, the stored entry is the new
descriptor with `last_seen` stamped to the registration time, and that
stamped descriptor is what the call returns. -/
theorem c3_register_overwrites_in_place (reg : MCPRegistry) (server : MCPServer)
    (now : Nat) (h : (reg.get server.name).isSome = true) :
    ((reg.register server now).2.list_all).length = reg.list_all.length ∧
    (reg.register server now).2.get server.name =
      some { server with last_seen := some now } ∧
    (reg.register server now).1 = { server with last_seen := some now } := by
  refine ⟨?_, ?_, rfl⟩
  · simp only [MCPRegistry.register, MCPRegistry.list_all, List.length_map]
    exact length_dictInsert server.name _ reg.servers h
  · simp only [MCPRegistry.register, MCPRegistry.get]
    exact alookup_dictInsert_self server.name _ reg.servers

/-- C3 witness: re-registering name `s` with a changed endpoint keeps the
registry size at one and stores the new descriptor with `last_seen = 9`. -/
theorem c3_witness :
    ((regS.register srvS2 9).2.list_all).length = regS.list_all.length ∧
    (regS.register srvS2 9).2.get srvS2.name = some { srvS2 with last_seen := some 9 } ∧
    (regS.register srvS2 9).1 = { srvS2 with last_seen := some 9 } :=
  c3_register_overwrites_in_place regS srvS2 9 (by decide)

/-- C4: when the request's URL is syntactically invalid the HTTP client
raises on every attempt against it before any traffic; then the liveness
probe reports not alive, the register operation fails, and the registry is
left unchanged — no descriptor is added. -/
theorem c4_invalid_url_registration_fails (net : String → ProbeResp)
    (reg : MCPRegistry) (request : MCPServerRegister) (now : Nat)
    (hbad : ∀ ep ∈ probeEndpoints, net (rstripSlash request.url ++ ep) = ProbeResp.exn) :
    (register_server net reg request now).1.success = false ∧
    (register_server net reg request now).2 = reg := by
  have halive : (probe_mcp_server net request.url).1.alive = false := by
    rw [probe_mcp_server, probeGo_all_exn net request.url probeEndpoints hbad]
  constructor <;> simp [register_server, halive]

/-- C4 witness: registering `http//:no scheme` (every attempt on it raises)
fails and leaves the empty registry empty. -/
theorem c4_witness :
    (register_server netProbeDead regEmpty reqBadUrl 0).1.success = false ∧
    (register_server netProbeDead regEmpty reqBadUrl 0).2 = regEmpty :=
  c4_invalid_url_registration_fails netProbeDead regEmpty reqBadUrl 0 (by decide)

/-- C5: `discover`'s `source` is the local-fallback `"local"` whenever the
discovery service is not used, not available, or reports no services (empty
service list or zero total); it equals the service's own reported source
exactly in the remaining case: used, available, and reporting at least one
service with a positive total. -/
theorem c5_discover_source_fallback (net : String → ProbeResp) (available : Bool)
    (refreshResult : DiscoveryResult) (docker_found : List ServerInfo)
    (reg : MCPRegistry) (request : MCPDiscoverRequest) (now : Nat) :
    ((request.use_discovery_service = false ∨ available = false ∨
      refreshResult.services = [] ∨ refreshResult.total = 0) →
      (discover_servers net available refreshResult docker_found reg request now).1.source
        = "local") ∧
    (request.use_discovery_service = true → available = true →
      refreshResult.services ≠ [] → 0 < refreshResult.total →
      (discover_servers net available refreshResult docker_found reg request now).1.source
        = refreshResult.source) := by
  constructor
  · intro h
    show (discoverLists net available refreshResult docker_found request).2 = "local"
    rcases h with h | h | h | h
    · simp [discoverLists, h]
    · simp [discoverLists, h]
    · simp [discoverLists, h]
    · simp [discoverLists, h]
  · intro huse havail hne htot
    show (discoverLists net available refreshResult docker_found request).2
      = refreshResult.source
    have hmap : (refreshResult.services.map svcToInfo).isEmpty = false := by
      cases hs : refreshResult.services with
      | nil => exact absurd hs hne
      | cons a l => simp [hs]
    simp [discoverLists, huse, havail, htot, hmap]

/-- C5 witness: with the service unavailable the source is `"local"`; with it
available and reporting one service the source is its own reported source. -/
theorem c5_witness :
    (discover_servers netProbeDead false remoteOne [] regEmpty reqDisc 0).1.source
      = "local" ∧
    (discover_servers netProbeDead true remoteOne [] regEmpty reqDisc 0).1.source
      = remoteOne.source :=
  ⟨(c5_discover_source_fallback netProbeDead false remoteOne [] regEmpty reqDisc 0).1
     (Or.inr (Or.inl rfl)),
   (c5_discover_source_fallback netProbeDead true remoteOne [] regEmpty reqDisc 0).2
     rfl rfl (by decide) (by decide)⟩

theorem autoRegister_preserves (now : Nat) (name : String) (s : MCPServer) :
    ∀ (infos : List ServerInfo) (reg : MCPRegistry),
      reg.get name = some s → (autoRegister now infos reg).get name = some s := by
  intro infos
  induction infos with
  | nil => intro reg h; exact h
  | cons info rest ih =>
    intro reg h
    unfold autoRegister
    cases hg : reg.get info.name with
    | some x =>
      simp only [hg]
      exact ih reg h
    | none =>
      simp only [hg]
      apply ih
      have hne : name ≠ info.name := by
        intro he
        rw [he, hg] at h
        exact Option.noConfusion h
      show alookup name (dictInsert info.name _ reg.servers) = some s
      rw [alookup_dictInsert_ne _ _ _ _ hne]
      exact h

/-- C6: a discovery pass never overwrites an existing registry entry — any
name already registered before `discover_servers` maps to the identical
descriptor afterwards, whatever the pass discovered. -/
theorem c6_discover_never_overwrites (net : String → ProbeResp) (available : Bool)
    (refreshResult : DiscoveryResult) (docker_found : List ServerInfo)
    (reg : MCPRegistry) (request : MCPDiscoverRequest) (now : Nat)
    (name : String) (s : MCPServer) (h : reg.get name = some s) :
    (discover_servers net available refreshResult docker_found reg request now).2.get name
      = some s := by
  show (autoRegister now
    (discoverLists net available refreshResult docker_found request).1 reg).get name = some s
  exact autoRegister_preserves now name s _ reg h

/-- C6 witness: a docker scan rediscovering the registered name `s` (at a
different URL) and a new name `b` leaves `s`'s descriptor untouched. -/
theorem c6_witness :
    (discover_servers netProbeDead false remoteOne dockerFoundSB regS
        reqScanDocker 3).2.get "s" = some srvS :=
  c6_discover_never_overwrites netProbeDead false remoteOne dockerFoundSB regS
    reqScanDocker 3 "s" srvS (by decide)

/-- C7: `unregister(name)` returns true exactly when an entry with that name
existed; when it does, the entry and its cached tool list are removed, and a
second unregister of the same name returns false (it also returns false when
nothing existed in the first place). -/
theorem c7_unregister_semantics (reg : MCPRegistry) (name : String) :
    ((reg.unregister name).1 = true ↔ (reg.get name).isSome = true) ∧
    ((reg.unregister name).1 = true →
       alookup name ((reg.unregister name).2).servers = none ∧
       alookup name ((reg.unregister name).2).tool_cache = none) ∧
    ((reg.unregister name).2.unregister name).1 = false := by
  by_cases h : (alookup name reg.servers).isSome = true
  · have hu : reg.unregister name =
        (true, { reg with servers := dictErase name reg.servers,
                          tool_cache := dictErase name reg.tool_cache }) := by
      rw [MCPRegistry.unregister, if_pos h]
    refine ⟨?_, ?_, ?_⟩
    · rw [hu]
      simp [MCPRegistry.get, h]
    · intro _
      rw [hu]
      exact ⟨alookup_dictErase_self name reg.servers,
             alookup_dictErase_self name reg.tool_cache⟩
    · rw [hu]
      simp [MCPRegistry.unregister, alookup_dictErase_self]
  · have hu : reg.unregister name = (false, reg) := by
      rw [MCPRegistry.unregister, if_neg (by simpa using h)]
    refine ⟨?_, ?_, ?_⟩
    · rw [hu]
      simp [MCPRegistry.get, h]
    · intro habs
      rw [hu] at habs
      simp at habs
    · rw [hu]
      show (reg.unregister name).1 = false
      rw [hu]

/-- C7 witness: unregistering the registered name `s` returns true and drops
its cache entry; unregistering it again immediately returns false. -/
theorem c7_witness :
    (regSFull.unregister "s").1 = true ∧
    alookup "s" ((regSFull.unregister "s").2).tool_cache = none ∧
    ((regSFull.unregister "s").2.unregister "s").1 = false :=
  ⟨(c7_unregister_semantics regSFull "s").1.mpr (by decide),
   ((c7_unregister_semantics regSFull "s").2.1
      ((c7_unregister_semantics regSFull "s").1.mpr (by decide))).2,
   (c7_unregister_semantics regSFull "s").2.2⟩

theorem list_all_tools_go_refresh (net : String → FetchResp) (now : Nat) :
    ∀ (servers : List MCPServer) (reg : MCPRegistry),
      (list_all_tools_go net true now servers reg).1 =
        (servers.filter fun s => s.enabled).flatMap
          (fun s => (fetchGo net s.url tool_endpoints []).1.map
            fun tl => { tool := tl, server := s.name, server_url := s.url }) := by
  intro servers
  induction servers with
  | nil => intro reg; rfl
  | cons s rest ih =>
    intro reg
    by_cases hs : s.enabled
    · have hfetch : fetch_mcp_tools net reg s true now =
          { tools := (fetchGo net s.url tool_endpoints []).1,
            attempts := (fetchGo net s.url tool_endpoints []).2,
            reg := reg.update_tools s.name (fetchGo net s.url tool_endpoints []).1 now } := by
        rw [fetch_mcp_tools]
        simp
      simp [list_all_tools_go, hs, hfetch, ih]
    · simp [list_all_tools_go, hs, ih reg]

/-- C8: `list_all_tools` with a forced refresh aggregates, over exactly the
enabled registered services, each service's own fetched tools tagged with
that service's name and URL — independent of any other service's outcome —
and a service all of whose fetch attempts fail to yield tools (times out,
raises, or answers unusable bodies) contributes the empty list, so it is
simply omitted from the aggregate. -/
theorem c8_aggregation_resilient (net : String → FetchResp) (now : Nat)
    (reg : MCPRegistry) :
    (list_all_tools net true now reg).1 =
      (reg.list_all.filter fun s => s.enabled).flatMap
        (fun s => (fetchGo net s.url tool_endpoints []).1.map
          fun tl => { tool := tl, server := s.name, server_url := s.url }) ∧
    ∀ url : String,
      (∀ ep ∈ tool_endpoints, failsToYieldTools (net (rstripSlash url ++ ep)) = true) →
      (fetchGo net url tool_endpoints []).1 = [] :=
  ⟨list_all_tools_go_refresh net now reg.list_all reg,
   fun url h => fetchGo_fail_nil net url tool_endpoints h⟩

/-- C8 witness: three enabled services `a`, `b`, `c` where every request to
`b` raises — the aggregate holds exactly `a`'s and `c`'s tools, tagged with
their owners, and omits `b`. -/
theorem c8_witness :
    (list_all_tools netAC true 0 regABC).1 =
      (regABC.list_all.filter fun s => s.enabled).flatMap
        (fun s => (fetchGo netAC s.url tool_endpoints []).1.map
          fun tl => { tool := tl, server := s.name, server_url := s.url }) ∧
    (fetchGo netAC "http://b" tool_endpoints []).1 = [] ∧
    (list_all_tools netAC true 0 regABC).1 =
      [{ tool := toolA, server := "a", server_url := "http://a" },
       { tool := toolB, server := "c", server_url := "http://c" }] :=
  ⟨(c8_aggregation_resilient netAC 0 regABC).1,
   (c8_aggregation_resilient netAC 0 regABC).2 "http://b" (by decide),
   by decide⟩

/-- C9: a network pass (forced, or with an invalid cache) in which every
candidate endpoint fails to yield tools still stores the empty list and
resets the freshness clock; any non-forced fetch within the TTL afterwards
answers the empty list from the cache with no HTTP attempt. -/
theorem c9_failed_fetch_cached_fresh_empty (net net2 : String → FetchResp)
    (reg : MCPRegistry) (server : MCPServer) (force : Bool) (now now2 : Nat)
    (hpass : force = true ∨ reg.is_cache_valid server.name now = false)
    (hfail : ∀ ep ∈ tool_endpoints,
      failsToYieldTools (net (rstripSlash server.url ++ ep)) = true)
    (httl : now2 - now < cacheTTL) :
    (fetch_mcp_tools net reg server force now).tools = [] ∧
    alookup server.name (fetch_mcp_tools net reg server force now).reg.tool_cache
      = some [] ∧
    alookup server.name (fetch_mcp_tools net reg server force now).reg.last_cache_refresh
      = some now ∧
    (fetch_mcp_tools net2 (fetch_mcp_tools net reg server force now).reg
        server false now2).tools = [] ∧
    (fetch_mcp_tools net2 (fetch_mcp_tools net reg server force now).reg
        server false now2).attempts = [] := by
  have hnil : (fetchGo net server.url tool_endpoints []).1 = [] :=
    fetchGo_fail_nil net server.url tool_endpoints hfail
  have hcond : (!force && reg.is_cache_valid server.name now) = false := by
    rcases hpass with h | h
    · rw [h]
      rfl
    · rw [h]
      simp
  have hfetch : fetch_mcp_tools net reg server force now =
      { tools := [], attempts := (fetchGo net server.url tool_endpoints []).2,
        reg := reg.update_tools server.name [] now } := by
    rw [fetch_mcp_tools, hcond]
    simp [hnil]
  have hcache : alookup server.name
      (fetch_mcp_tools net reg server force now).reg.tool_cache = some [] := by
    rw [hfetch]
    simp [update_tools_tool_cache, alookup_dictInsert_self]
  have hstamp : alookup server.name
      (fetch_mcp_tools net reg server force now).reg.last_cache_refresh = some now := by
    rw [hfetch]
    simp [update_tools_refresh, alookup_dictInsert_self]
  have hvalid : (fetch_mcp_tools net reg server force now).reg.is_cache_valid
      server.name now2 = true := by
    rw [MCPRegistry.is_cache_valid, hstamp]
    simpa using httl
  have hsecond : fetch_mcp_tools net2 (fetch_mcp_tools net reg server force now).reg
      server false now2 =
      { tools := (fetch_mcp_tools net reg server force now).reg.get_tools server.name,
        attempts := [], reg := (fetch_mcp_tools net reg server force now).reg } := by
    rw [fetch_mcp_tools]
    simp [hvalid]
  refine ⟨by rw [hfetch], hcache, hstamp, ?_, by rw [hsecond]⟩
  rw [hsecond]
  show (fetch_mcp_tools net reg server force now).reg.get_tools server.name = []
  rw [MCPRegistry.get_tools, hcache]
  rfl

/-- C9 witness: a forced fetch against a dead network at tick 7 caches the
empty list as fresh; a non-forced fetch at tick 20 answers it with no
attempt. -/
theorem c9_witness :
    (fetch_mcp_tools netFetchDead regEmpty srvS true 7).tools = [] ∧
    alookup srvS.name (fetch_mcp_tools netFetchDead regEmpty srvS true 7).reg.tool_cache
      = some [] ∧
    alookup srvS.name
        (fetch_mcp_tools netFetchDead regEmpty srvS true 7).reg.last_cache_refresh
      = some 7 ∧
    (fetch_mcp_tools netFetchDead (fetch_mcp_tools netFetchDead regEmpty srvS true 7).reg
        srvS false 20).tools = [] ∧
    (fetch_mcp_tools netFetchDead (fetch_mcp_tools netFetchDead regEmpty srvS true 7).reg
        srvS false 20).attempts = [] :=
  c9_failed_fetch_cached_fresh_empty netFetchDead netFetchDead regEmpty srvS true 7 20
    (Or.inl rfl) (by decide) (by decide)

/-- C10: unregistering a registered name leaves `last_cache_refresh` for that
name untouched, so the cache is still reported fresh within the TTL of its
last fetch; re-registering a same-named service and fetching without force
inside that window is answered from the now-empty cache with no HTTP
attempt. -/
theorem c10_unregister_keeps_freshness (reg : MCPRegistry) (name : String)
    (server : MCPServer) (net : String → FetchResp) (t now regNow : Nat)
    (hreg : (reg.get name).isSome = true)
    (ht : alookup name reg.last_cache_refresh = some t)
    (hfresh : now - t < cacheTTL)
    (hname : server.name = name) :
    (reg.unregister name).2.last_cache_refresh = reg.last_cache_refresh ∧
    (reg.unregister name).2.is_cache_valid name now = true ∧
    (fetch_mcp_tools net ((reg.unregister name).2.register server regNow).2
        server false now).tools = [] ∧
    (fetch_mcp_tools net ((reg.unregister name).2.register server regNow).2
        server false now).attempts = [] := by
  have hreg2 : (alookup name reg.servers).isSome = true := hreg
  have hu : reg.unregister name =
      (true, { reg with servers := dictErase name reg.servers,
                        tool_cache := dictErase name reg.tool_cache }) := by
    rw [MCPRegistry.unregister, if_pos hreg2]
  have hvalid2 : (((reg.unregister name).2.register server regNow).2).is_cache_valid
      server.name now = true := by
    rw [hu, hname]
    show MCPRegistry.is_cache_valid _ name now = true
    rw [MCPRegistry.is_cache_valid]
    show (match alookup name reg.last_cache_refresh with
          | none => false
          | some u => decide (now - u < cacheTTL)) = true
    rw [ht]
    simpa using hfresh
  have hsecond : fetch_mcp_tools net ((reg.unregister name).2.register server regNow).2
      server false now =
      { tools := (((reg.unregister name).2.register server regNow).2).get_tools server.name,
        attempts := [],
        reg := ((reg.unregister name).2.register server regNow).2 } := by
    rw [fetch_mcp_tools]
    simp [hvalid2]
  refine ⟨by rw [hu], ?_, ?_, by rw [hsecond]⟩
  · rw [hu]
    show MCPRegistry.is_cache_valid _ name now = true
    rw [MCPRegistry.is_cache_valid]
    show (match alookup name reg.last_cache_refresh with
          | none => false
          | some u => decide (now - u < cacheTTL)) = true
    rw [ht]
    simpa using hfresh
  · rw [hsecond]
    show (((reg.unregister name).2.register server regNow).2).get_tools server.name = []
    rw [hu, hname]
    show ((alookup name (dictErase name reg.tool_cache)).getD []) = []
    rw [alookup_dictErase_self]
    rfl

/-- C10 witness: `s` (cache stamped at tick 5) is unregistered, re-registered
at tick 50, and fetched without force at tick 100: the freshness stamp is
intact, the cache reports fresh, and the fetch answers the empty cache with
no attempt. -/
theorem c10_witness :
    (regSFull.unregister "s").2.last_cache_refresh = regSFull.last_cache_refresh ∧
    (regSFull.unregister "s").2.is_cache_valid "s" 100 = true ∧
    (fetch_mcp_tools netFetchDead ((regSFull.unregister "s").2.register srvS 50).2
        srvS false 100).tools = [] ∧
    (fetch_mcp_tools netFetchDead ((regSFull.unregister "s").2.register srvS 50).2
        srvS false 100).attempts = [] :=
  c10_unregister_keeps_freshness regSFull "s" srvS netFetchDead 5 100 50
    (by decide) (by decide) (by decide) rfl
